import Mathlib

/-!
Verification development for the BDSA Schema Wrangler metadata
harmonization pipeline (`components/metadataBrowser_layout.py`, present in
two variants: `pythonApp/` and `app/`).

Modelling conventions (shallow embedding):
  * After `pd.DataFrame(records).fillna("")` every row of a dataset shares
    one global column list and every cell is a string ("empty-fill
    normalization").  A dataset is therefore modelled as a `DF`: a column
    list plus one association list per row whose keys are the columns.
  * Reading a cell mirrors `row.get(col, "")` / column indexing: a missing
    key yields the empty string.
  * File reads (schema file, shim dictionary file) are modelled by passing
    the parsed JSON value as a parameter; the repository reads them fresh
    on every call and never mutates them.
  * Python dicts are modelled as association lists in declaration order
    (CPython dicts preserve insertion order).
  * Python floats are modelled as exact rationals; the `.2f` format is
    modelled as round-half-even to two decimals of the exact rational.
  * `pandas.Series.value_counts()` row ordering (frequency-descending,
    ties unspecified) is not modelled; histogram contents are modelled in
    first-occurrence order and all statements about histograms are
    order-insensitive (lookups of individual values).
-/

/-- One table row after empty-fill normalization: field name to string value. -/
abbrev Row := List (String × String)

/-- A dataset in DataFrame form: a shared column list plus the rows. -/
structure DF where
  cols : List String
  rows : List Row
deriving DecidableEq

/-- Cell read, mirroring `r.get(col, "")`: missing keys give the empty string. -/
def dfGet (r : Row) (f : String) : String :=
  (r.lookup f).getD ""

/-- Build a row over a column list from a value function (the normalized
form every pipeline stage produces). -/
def mkRow (nc : List String) (g : String → String) : Row :=
  nc.map (fun c => (c, g c))

/-- A shim-dictionary entry for one field: canonical value to synonym list,
in declaration order. -/
abbrev KeyMap := List (String × List String)

/-- The shim dictionary: governed field to its `KeyMap`, in declaration order. -/
abbrev ShimDict := List (String × KeyMap)

/-- Value rewriting for one field of one row, from `update_metadata_store`
(shim branch): keep `v` when it is already a canonical key of the map;
otherwise replace it with the first canonical value whose synonym list
contains it (`for k, v in key_map.items(): if row_value in v: ...; break`);
otherwise keep it. -/
def resolveField (km : KeyMap) (v : String) : String :=
  if (km.map Prod.fst).contains v then v
  else
    match km.find? (fun e => e.2.contains v) with
    | some e => e.1
    | none => v

/-- Whether processing a field that is absent from the dataset writes a value:
the row value read is `""`, and `df.loc[i, f] = k` fires iff `""` is not a
canonical key and some synonym list contains `""`. -/
def shimHitsEmpty (km : KeyMap) : Bool :=
  !(km.map Prod.fst).contains "" && (km.find? (fun e => e.2.contains "")).isSome

/-- Output value of one field of one row under the shim dictionary.  Reads
come from the pre-loop snapshot (`iterrows` materializes `df.values` before
the loop body runs), so every field is rewritten from the original value. -/
def shimOutVal (shim : ShimDict) (r : Row) (f : String) : String :=
  match shim.lookup f with
  | some km => resolveField km (dfGet r f)
  | none => dfGet r f

/-- Columns the shim pass appends: dictionary fields that are not dataset
columns and whose processing writes a value for the uniform read `""`
(`df.loc[i, f] = k` on a fresh column name), in dictionary declaration
order.  Nothing is written when there are no rows. -/
def shimAddedCols (df : DF) (shim : ShimDict) : List String :=
  if df.rows.isEmpty then []
  else (shim.filter (fun e => !df.cols.contains e.1 && shimHitsEmpty e.2)).map Prod.fst

/-- The shim-dictionary branch of `update_metadata_store`: iterate all rows
and all dictionary fields, rewriting values in place.  A dictionary field
absent from the dataset is appended as a new column exactly when the empty
string (the value `r.get(f, "")` reads for it) rewrites to a canonical
value; since that read is `""` uniformly across rows, either every row is
written or none is, so no NaN cells arise. -/
def update_metadata_store_shim (df : DF) (shim : ShimDict) : DF :=
  { cols := df.cols ++ shimAddedCols df shim
    rows := df.rows.map (fun r =>
      mkRow (df.cols ++ shimAddedCols df shim) (fun f => shimOutVal shim r f)) }

/-- Modelled from the spec wording of shim resolution (used to compare the
code against the specification text): if `v` is already a canonical key,
leave unchanged; otherwise scan canonical entries in declaration order and
replace with the first whose synonym set contains `v`; if none, leave
unchanged. -/
def spec_scan : KeyMap → String → String
  | [], v => v
  | e :: rest, v => if e.2.contains v then e.1 else spec_scan rest v

/-- Modelled from the spec wording: full per-value shim resolution rule. -/
def spec_resolve_value (km : KeyMap) (v : String) : String :=
  if (km.map Prod.fst).contains v then v else spec_scan km v

/-- Standardized columns in their fixed output order. -/
def stdColsList : List String := ["bdsaCaseID", "bdsaRegionID", "bdsaStainID"]

/-- Values of one column, in row order (`df[c]` after empty-fill). -/
def colVals (df : DF) (c : String) : List String :=
  df.rows.map (fun r => dfGet r c)

/-- pandas column assignment `df[name] = vals`: overwrite when the column
exists, else append it at the end; each row is renormalized over the
updated column list. -/
def setCol (df : DF) (name : String) (vals : List String) : DF :=
  { cols := if df.cols.contains name then df.cols else df.cols ++ [name]
    rows := List.zipWith (fun r v =>
        mkRow (if df.cols.contains name then df.cols else df.cols ++ [name])
          (fun c => if c = name then v else dfGet r c))
      df.rows vals }

/-- One standardized-column assignment from `apply_column_mappings`:
`df[std] = df[src]` when the mapping value is truthy and names a current
column, else `df[std] = ""` for every row. -/
def applyStdAssign (df : DF) (src : Option String) (std : String) : DF :=
  match src with
  | some c =>
    if (c != "") && df.cols.contains c then setCol df std (colVals df c)
    else setCol df std (df.rows.map (fun _ => ""))
  | none => setCol df std (df.rows.map (fun _ => ""))

/-- The per-row value one standardized assignment writes (source cell when
the mapping value is truthy and a current column, else empty). -/
def assignedVal (df : DF) (src : Option String) (i : Nat) : String :=
  match src with
  | some s => if (s != "") && df.cols.contains s then dfGet (df.rows.getD i []) s else ""
  | none => ""

/-- Reordering tail of `apply_column_mappings`: standardized columns first
in fixed order, then the remaining columns in their current relative
order. -/
def reorderStd (df : DF) : DF :=
  { cols := stdColsList ++ df.cols.filter (fun c => !stdColsList.contains c)
    rows := df.rows.map (fun r =>
      mkRow (stdColsList ++ df.cols.filter (fun c => !stdColsList.contains c))
        (fun c => dfGet r c)) }

/-- First assignment of `apply_column_mappings`: the stain column. -/
def acmStage1 (df : DF) (mappings : List (String × String)) : DF :=
  applyStdAssign df (mappings.lookup "stainID") "bdsaStainID"

/-- Second assignment: the region column (checks run against the columns
after the first assignment, as in the source). -/
def acmStage2 (df : DF) (mappings : List (String × String)) : DF :=
  applyStdAssign (acmStage1 df mappings) (mappings.lookup "regionName") "bdsaRegionID"

/-- Third assignment: the case column. -/
def acmStage3 (df : DF) (mappings : List (String × String)) : DF :=
  applyStdAssign (acmStage2 df mappings) (mappings.lookup "caseID") "bdsaCaseID"

/-- Callback `apply_column_mappings`: the guard returns the store unchanged when
there are no rows or no mappings; otherwise assign the three standardized
columns (in source order: stain, region, case; each membership check is
against the then-current columns) and put them first. -/
def apply_column_mappings (df : DF) (mappings : List (String × String)) : DF :=
  if df.rows.isEmpty || mappings.isEmpty then df
  else reorderStd (acmStage3 df mappings)

/-- Column ordering performed by `export_csv` on the exported frame:
standardized columns present in the data come first in fixed order,
followed by the rest in relative order; when none are present the frame is
left untouched. -/
def export_csv_cols (df : DF) : List String :=
  if df.cols.any (fun c => stdColsList.contains c) then
    stdColsList.filter (fun c => df.cols.contains c)
      ++ df.cols.filter (fun c => !stdColsList.contains c)
  else df.cols

/-- Modelled from the spec wording of the Column Mapper (for comparison
with the code): the standardized value is the verbatim source value when
the canonical field is mapped to a column present in the dataset, and the
empty string otherwise. -/
def spec_std_value (df : DF) (mappings : List (String × String)) (r : Row) (f : String) : String :=
  match mappings.lookup f with
  | some c => if df.cols.contains c then dfGet r c else ""
  | none => ""

/-- Minimal JSON values (the subset schema documents use). -/
inductive JVal where
  | s (v : String)
  | num (n : Int)
  | arr (elems : List JVal)
  | obj (fields : List (String × JVal))
  | null

/-- Python subscript `j[k]`: KeyError when the key is missing, TypeError
when the value is not a dict. -/
def jGet (j : JVal) (k : String) : Except String JVal :=
  match j with
  | JVal.obj fields =>
    match fields.lookup k with
    | some v => Except.ok v
    | none => Except.error ("KeyError: " ++ k)
  | _ => Except.error ("TypeError: value holding " ++ k ++ " is not subscriptable")

/-- The schema read `schema["properties"][field]["enum"]`. -/
def getEnum (schema : JVal) (field : String) : Except String JVal :=
  match jGet schema "properties" with
  | Except.error e => Except.error e
  | Except.ok props =>
    match jGet props field with
    | Except.error e => Except.error e
    | Except.ok fld => jGet fld "enum"

/-- Values pandas `isin` tests against, when its argument is list-like.
An array contributes its elements; a dict is list-like too (iterable and
not a string), and iterating it yields its keys, so `isin(dict)` tests
membership against the keys.  Strings, numbers and null are not list-like
and make `isin` raise TypeError. -/
def isinValues : JVal → Option (List JVal)
  | JVal.arr xs => some xs
  | JVal.obj fields => some (fields.map (fun p => JVal.s p.1))
  | _ => none

/-- Membership test of `Series.isin(enum)` for one string cell against the enum's
JSON elements (Python equality: a string cell only matches string
elements). -/
def memEnum (enum : List JVal) (v : String) : Bool :=
  enum.any (fun x => match x with | JVal.s w => w == v | _ => false)

/-- Counter (`collections.Counter`) of a list of strings: counts in first-occurrence
order. -/
def countList (vs : List String) : List (String × Nat) :=
  vs.foldl (fun acc v =>
    if acc.any (fun p => p.1 == v) then
      acc.map (fun p => if p.1 == v then (p.1, p.2 + 1) else p)
    else acc ++ [(v, 1)]) []

/-- Histogram read: the count recorded for a value (0 when absent). -/
def cnt (h : List (String × Nat)) (v : String) : Nat :=
  (h.lookup v).getD 0

/-- Round half to even (the tie rule of Python float formatting) of the
exact fraction num/den, as used for the two-decimal percentage: the
percentage `count/N*100` is rendered from `count*10000/N` hundredths.
Modelling note: Python computes this on binary doubles; the exact-rational
rounding here agrees except at ties perturbed by double rounding error. -/
def roundHalfEvenDiv (num den : Nat) : Nat :=
  let q := num / den
  let r := num % den
  if 2 * r < den then q
  else if den < 2 * r then q + 1
  else if q % 2 = 0 then q else q + 1

/-- Render a percentage given in hundredths with exactly two decimals. -/
def fmt2frac (m : Nat) : String :=
  toString (m / 100) ++ "."
    ++ (if m % 100 < 10 then "0" ++ toString (m % 100) else toString (m % 100))

/-- The pythonApp metric string: count followed by the two-decimal
percentage of `count/n*100` in parentheses. -/
def pctString (count n : Nat) : String :=
  toString count ++ " (" ++ fmt2frac (roundHalfEvenDiv (count * 10000) n) ++ "%)"

/-- The app-variant metric string: the conditional was written inside the
f-string literal, so its text appears verbatim in the output. -/
def appPctString (count n : Nat) : String :=
  toString count ++ " ("
    ++ fmt2frac (roundHalfEvenDiv (count * 10000) n) ++ "% if N > 0 else 0)"

/-- Python truthiness of an optional string (None and "" are falsy). -/
def truthy : Option String → Bool
  | some c => c != ""
  | none => false

/-- The check `col and col in table_data.columns` guarding each per-field
block of `get_metadata_stats`. -/
def colOk (col : Option String) (cols : List String) : Bool :=
  truthy col && cols.contains (col.getD "")

/-- pythonApp fallback alias lists, tried in order. -/
def stainAliasesPy : List String := ["stainID", "stain_id", "stain", "Stain"]

/-- pythonApp fallback alias list for the region column. -/
def regionAliasesPy : List String := ["regionName", "region_name", "region", "Region"]

/-- pythonApp fallback alias list for the case column. -/
def caseAliasesPy : List String := ["caseID", "case_id", "case", "Case"]

/-- pythonApp effective-column resolution: the standardized column wins
whenever it exists; else the caller's mapping value when truthy; else the
first alias that is a column; else the unchanged (falsy) mapping value. -/
def py_resolve_col (std : String) (mapped : Option String) (aliases : List String)
    (cols : List String) : Option String :=
  if cols.contains std then some std
  else if truthy mapped then mapped
  else
    match aliases.find? (fun a => cols.contains a) with
    | some a => some a
    | none => mapped

/-- app-variant alias list for the stain column. -/
def stainAliasesApp : List String := ["stainID", "stainid", "stain_id", "stain"]

/-- app-variant alias list for the region column. -/
def regionAliasesApp : List String := ["regionName", "regionname", "region_name", "region"]

/-- app-variant alias list for the case column. -/
def caseAliasesApp : List String := ["caseID", "caseid", "case_id", "case"]

/-- app-variant effective-column resolution: first alias present. -/
def app_resolve_col (aliases : List String) (cols : List String) : Option String :=
  aliases.find? (fun a => cols.contains a)

/-- Rows whose value in column `c` is a member of the enum (`isin` count). -/
def validCount (enum : List JVal) (df : DF) (c : String) : Nat :=
  df.rows.countP (fun r => memEnum enum (dfGet r c))

/-- pythonApp composite file validity: rows valid for BOTH stain and
region (no caseID conjunct in this variant); 0 unless both columns
resolved. -/
def py_valid_files (validStains validRegions : List JVal) (df : DF)
    (stain_col region_col : Option String) : Nat :=
  if colOk stain_col df.cols && colOk region_col df.cols then
    df.rows.countP (fun r =>
      memEnum validStains (dfGet r (stain_col.getD ""))
        && memEnum validRegions (dfGet r (region_col.getD "")))
  else 0

/-- app-variant composite file validity: non-empty case AND stain in enum
AND region in enum; 0 unless all three columns were found. -/
def app_valid_files (validStains validRegions : List JVal) (df : DF)
    (case_col stain_col region_col : Option String) : Nat :=
  match case_col, stain_col, region_col with
  | some cc, some sc, some rc =>
    df.rows.countP (fun r =>
      (dfGet r cc != "") && memEnum validStains (dfGet r sc)
        && memEnum validRegions (dfGet r rc))
  | _, _, _ => 0

/-- Count of rows with a non-empty value in the case column. -/
def caseValidCount (df : DF) (c : String) : Nat :=
  df.rows.countP (fun r => dfGet r c != "")

/-- The three outputs of `get_metadata_stats`: the summary table rows and
the stain and region histogram tables. -/
structure StatsOut where
  summary : List (List String)
  stains : List (String × Nat)
  regions : List (String × Nat)
deriving DecidableEq

/-- The not-found marker text of the pythonApp variant. -/
def pyMarker : String := "Column not found or not mapped"

/-- pythonApp `get_metadata_stats` (core, after the schema file has been
read and both enums extracted as JSON lists): resolve effective columns,
count valid values, build histograms (all values when the switch is on,
nothing otherwise), composite validity over stain and region, and format
the summary rows.  The empty-store guard `if len(table_data):` makes the
zero-row percentage branch unreachable; it is transcribed faithfully
anyway. -/
def py_get_metadata_stats (validStains validRegions : List JVal)
    (mappings : List (String × String)) (df : DF)
    (stain_check region_check : Bool) : StatsOut :=
  if df.rows.isEmpty then ⟨[], [], []⟩
  else
    let stain_col := py_resolve_col "bdsaStainID" (mappings.lookup "stainID") stainAliasesPy df.cols
    let region_col := py_resolve_col "bdsaRegionID" (mappings.lookup "regionName") regionAliasesPy df.cols
    let case_col := py_resolve_col "bdsaCaseID" (mappings.lookup "caseID") caseAliasesPy df.cols
    let stain_valid_count := if colOk stain_col df.cols then validCount validStains df (stain_col.getD "") else 0
    let stains := if colOk stain_col df.cols && stain_check then countList (colVals df (stain_col.getD "")) else []
    let region_valid_count := if colOk region_col df.cols then validCount validRegions df (region_col.getD "") else 0
    let regions := if colOk region_col df.cols && region_check then countList (colVals df (region_col.getD "")) else []
    let valid_files := py_valid_files validStains validRegions df stain_col region_col
    let case_valid_count := if colOk case_col df.cols then caseValidCount df (case_col.getD "") else 0
    let N := df.rows.length
    let files_pct := if N > 0 then pctString valid_files N else "0 (0.00%)"
    let case_pct := if colOk case_col df.cols then (if N > 0 then pctString case_valid_count N else "0 (0.00%)") else pyMarker
    let stain_pct := if colOk stain_col df.cols then (if N > 0 then pctString stain_valid_count N else "0 (0.00%)") else pyMarker
    let region_pct := if colOk region_col df.cols then (if N > 0 then pctString region_valid_count N else "0 (0.00%)") else pyMarker
    let caseRows := if colOk case_col df.cols then [["caseID", case_pct], ["caseID column", case_col.getD ""]] else [["caseID", pyMarker]]
    let stainRows := if colOk stain_col df.cols then [["stainID", stain_pct], ["stainID column", stain_col.getD ""]] else [["stainID", pyMarker]]
    let regionRows := if colOk region_col df.cols then [["regionName", region_pct], ["regionName column", region_col.getD ""]] else [["regionName", pyMarker]]
    { summary := [["Files", files_pct]] ++ caseRows ++ stainRows ++ regionRows
      stains := stains
      regions := regions }

/-- app-variant `get_metadata_stats` (core): alias-only column resolution;
histograms over the invalid values (switch on) or the valid values (switch
off); composite validity over case, stain and region; metric strings carry
the broken f-string conditional verbatim. -/
def app_get_metadata_stats (validStains validRegions : List JVal) (df : DF)
    (stain_check region_check : Bool) : StatsOut :=
  if df.rows.isEmpty then ⟨[], [], []⟩
  else
    let stain_col := app_resolve_col stainAliasesApp df.cols
    let region_col := app_resolve_col regionAliasesApp df.cols
    let case_col := app_resolve_col caseAliasesApp df.cols
    let stains := match stain_col with
      | some c => countList ((colVals df c).filter
          (fun v => if stain_check then !(memEnum validStains v) else memEnum validStains v))
      | none => []
    let stain_valid_count := match stain_col with
      | some c => validCount validStains df c
      | none => 0
    let regions := match region_col with
      | some c => countList ((colVals df c).filter
          (fun v => if region_check then !(memEnum validRegions v) else memEnum validRegions v))
      | none => []
    let region_valid_count := match region_col with
      | some c => validCount validRegions df c
      | none => 0
    let valid_files := app_valid_files validStains validRegions df case_col stain_col region_col
    let case_valid_count := match case_col with
      | some c => caseValidCount df c
      | none => 0
    let N := df.rows.length
    let caseRows := match case_col with
      | some _ => [["caseID", appPctString case_valid_count N]]
      | none => [["caseID", "Column not found"]]
    let stainRows := match stain_col with
      | some _ => [["stainID", appPctString stain_valid_count N]]
      | none => [["stainID", "Column not found"]]
    let regionRows := match region_col with
      | some _ => [["regionName", appPctString region_valid_count N]]
      | none => [["regionName", "Column not found"]]
    { summary := [["Files", appPctString valid_files N]] ++ caseRows ++ stainRows ++ regionRows
      stains := stains
      regions := regions }

/-- The pandas error message for `isin` applied to a non-list-like
enum (a string, number or null). -/
def typeErrIsin : String := "TypeError: only list-like objects are allowed to be passed to isin"

/-- pythonApp `get_metadata_stats` from the schema document: the empty
guard runs before the schema is read; the two enum reads raise KeyError
when absent; a non-list-like enum (string, number or null) raises
TypeError at the first `isin` call, which only happens when the
corresponding column resolved (otherwise the enum is never consulted and
`[]` is passed as an inconsequential placeholder); a dict enum is
list-like, so `isin` tests membership against its keys without raising. -/
def py_get_metadata_stats_schema (schema : JVal) (mappings : List (String × String))
    (df : DF) (stain_check region_check : Bool) : Except String StatsOut :=
  if df.rows.isEmpty then Except.ok ⟨[], [], []⟩
  else
    match getEnum schema "regionName" with
    | Except.error e => Except.error e
    | Except.ok vrJ =>
      match getEnum schema "stainID" with
      | Except.error e => Except.error e
      | Except.ok vsJ =>
        let stain_col := py_resolve_col "bdsaStainID" (mappings.lookup "stainID") stainAliasesPy df.cols
        let region_col := py_resolve_col "bdsaRegionID" (mappings.lookup "regionName") regionAliasesPy df.cols
        match isinValues vsJ, isinValues vrJ with
        | some vs, some vr =>
          Except.ok (py_get_metadata_stats vs vr mappings df stain_check region_check)
        | none, some vr =>
          if colOk stain_col df.cols then Except.error typeErrIsin
          else Except.ok (py_get_metadata_stats [] vr mappings df stain_check region_check)
        | some vs, none =>
          if colOk region_col df.cols then Except.error typeErrIsin
          else Except.ok (py_get_metadata_stats vs [] mappings df stain_check region_check)
        | none, none =>
          if colOk stain_col df.cols then Except.error typeErrIsin
          else if colOk region_col df.cols then Except.error typeErrIsin
          else Except.ok (py_get_metadata_stats [] [] mappings df stain_check region_check)

/-- Modelled from the spec wording: composite file validity is conjunctive
(non-empty case AND stain in enum AND region in enum). -/
def spec_fully_valid_count (validStains validRegions : List JVal) (df : DF)
    (caseC stainC regionC : String) : Nat :=
  df.rows.countP (fun r =>
    (dfGet r caseC != "") && memEnum validStains (dfGet r stainC)
      && memEnum validRegions (dfGet r regionC))

/-- Modelled from the spec wording: the per-field frequency histogram
counts the invalid values (switch on) or the valid values (switch off). -/
def spec_histogram (enum : List JVal) (values : List String) (invalidMode : Bool) :
    List (String × Nat) :=
  countList (values.filter
    (fun v => if invalidMode then !(memEnum enum v) else memEnum enum v))

/-- Modelled from the spec wording of the Validator's column resolution:
prefer the standardized column only when present AND non-empty for at
least one row; otherwise the first alias that is a column; otherwise
none. -/
def claim_resolve_col (std : String) (aliases : List String) (df : DF) : Option String :=
  if df.cols.contains std && df.rows.any (fun r => dfGet r std != "") then some std
  else aliases.find? (fun a => df.cols.contains a)

/-- Scenario A dataset: one row with a raw stain synonym. -/
def scenA_df : DF := ⟨["stainID"], [[("stainID", "he")]]⟩

/-- Scenario A shim dictionary. -/
def scenA_shim : ShimDict := [("stainID", [("H&E", ["he", "H and E"])])]

/-- Counterexample input for the frame property: the dataset lacks the
governed column and the dictionary maps the empty string as a synonym. -/
def c10_df : DF := ⟨["a"], [[("a", "x")]]⟩

/-- Shim dictionary with an empty-string synonym for a column the dataset
does not have. -/
def c10_shim : ShimDict := [("stainID", [("H&E", [""])])]

/-- Scenario C dataset: four rows of stain values. -/
def scenC_df : DF :=
  ⟨["stainID"], [[("stainID", "H&E")], [("stainID", "Tau")], [("stainID", "Foo")], [("stainID", "H&E")]]⟩

/-- Scenario C stain enum. -/
def enumST : List JVal := [JVal.s "H&E", JVal.s "Tau"]

/-- A region enum for the concrete runs. -/
def enumRG : List JVal := [JVal.s "Amygdala"]

/-- Composite-validity counterexample dataset: empty case, valid stain and
region, all three standardized columns present. -/
def c2_df : DF :=
  ⟨["bdsaCaseID", "bdsaStainID", "bdsaRegionID"],
   [[("bdsaCaseID", ""), ("bdsaStainID", "H&E"), ("bdsaRegionID", "Amygdala")]]⟩

/-- Column-mapper counterexample dataset: one ordinary column. -/
def c5a_df : DF := ⟨["x"], [[("x", "v")]]⟩

/-- Column-mapper aliasing counterexample: the dataset column is itself a
standardized name. -/
def c5b_df : DF := ⟨["bdsaStainID"], [[("bdsaStainID", "x")]]⟩

/-- Mapping that points a canonical field at a standardized column name. -/
def c5b_map : List (String × String) := [("caseID", "bdsaStainID")]

/-- Validator-resolution counterexample dataset: an all-empty standardized
stain column next to a fully-valued alias column. -/
def c6_df : DF := ⟨["bdsaStainID", "stainID"], [[("bdsaStainID", ""), ("stainID", "H&E")]]⟩

/-- Formatting counterexample dataset: one fully valid row using alias
column names. -/
def c7_df : DF :=
  ⟨["caseID", "stainID", "regionName"],
   [[("caseID", "c1"), ("stainID", "H&E"), ("regionName", "Amygdala")]]⟩

/-- Schema whose stainID property has no enum key (regionName is fine). -/
def c8_schema : JVal :=
  JVal.obj [("properties", JVal.obj
    [("regionName", JVal.obj [("enum", JVal.arr [JVal.s "Amygdala"])]),
     ("stainID", JVal.obj [])])]

/-- Well-formed schema used by the witnesses. -/
def okSchema : JVal :=
  JVal.obj [("properties", JVal.obj
    [("regionName", JVal.obj [("enum", JVal.arr [JVal.s "Amygdala"])]),
     ("stainID", JVal.obj [("enum", JVal.arr [JVal.s "H&E", JVal.s "Tau"])])])]

/-- A well-behaved mapping (non-empty, source columns are not standardized
names) used by the witnesses. -/
def okMap : List (String × String) :=
  [("caseID", "caseID"), ("regionName", "regionName"), ("stainID", "stainID")]

/-- Ordering counterexample: a dataset with no rows (the guard of
`apply_column_mappings` passes it through unchanged). -/
def c9_df : DF := ⟨["x"], []⟩

/-- A non-empty mapping for the ordering counterexample. -/
def c9_map : List (String × String) := [("caseID", "x")]

section ShimLemmas

/-- Membership phrasing of `List.contains` for strings. -/
theorem contains_eq_mem (l : List String) (x : String) :
    l.contains x = true ↔ x ∈ l := by
  simp [List.contains]

/-- Looking a key up in a row built by `mkRow` yields the generating
function's value exactly on the column list. -/
theorem lookup_mkRow (nc : List String) (g : String → String) (x : String) :
    (mkRow nc g).lookup x = if x ∈ nc then some (g x) else none := by
  induction nc with
  | nil => simp [mkRow]
  | cons c t ih =>
    by_cases h : x = c
    · subst h
      simp [mkRow, List.lookup]
    · have hbc : (x == c) = false := by
        simp [h]
      simp only [mkRow, List.map_cons, List.lookup, hbc, List.mem_cons, h, false_or]
      simpa [mkRow] using ih

/-- Cell read of a `mkRow` row. -/
theorem dfGet_mkRow (nc : List String) (g : String → String) (x : String) :
    dfGet (mkRow nc g) x = if x ∈ nc then g x else "" := by
  rw [dfGet, lookup_mkRow]
  by_cases h : x ∈ nc <;> simp [h]

/-- Idempotence of `resolveField`: canonical outputs are fixed points. -/
theorem resolveField_idem (km : KeyMap) (v : String) :
    resolveField km (resolveField km v) = resolveField km v := by
  by_cases h : ((km.map Prod.fst).contains v) = true
  · unfold resolveField
    rw [if_pos h, if_pos h]
  · unfold resolveField
    rw [if_neg h]
    rcases hf : km.find? (fun e => e.2.contains v) with _ | e
    · rw [hf, if_neg h, hf]
    · rw [hf]
      have he : e ∈ km := List.mem_of_find?_eq_some hf
      have h1 : e.1 ∈ km.map Prod.fst := List.mem_map_of_mem Prod.fst he
      have hc : ((km.map Prod.fst).contains e.1) = true :=
        (contains_eq_mem _ _).mpr h1
      rw [if_pos hc]

/-- Rewrite rule: output value of an ungoverned field. -/
theorem shimOutVal_none (shim : ShimDict) (r : Row) (f : String)
    (h : shim.lookup f = none) : shimOutVal shim r f = dfGet r f := by
  unfold shimOutVal
  rw [h]

/-- Rewrite rule: output value of a governed field. -/
theorem shimOutVal_some (shim : ShimDict) (r : Row) (f : String) (km : KeyMap)
    (h : shim.lookup f = some km) :
    shimOutVal shim r f = resolveField km (dfGet r f) := by
  unfold shimOutVal
  rw [h]

/-- Re-running the shim pass on an already-resolved row changes nothing:
each field of the output row is a fixed point of its own rewriting. -/
theorem shimOutVal_stable (shim : ShimDict) (r : Row) (nc : List String) (f : String)
    (hf : f ∈ nc) :
    shimOutVal shim (mkRow nc (fun c => shimOutVal shim r c)) f = shimOutVal shim r f := by
  have hget : dfGet (mkRow nc (fun c => shimOutVal shim r c)) f = shimOutVal shim r f := by
    rw [dfGet_mkRow, if_pos hf]
  rcases h : shim.lookup f with _ | km
  · rw [shimOutVal_none shim _ f h, hget]
  · rw [shimOutVal_some shim _ f km h, hget, shimOutVal_some shim r f km h,
      resolveField_idem]

/-- The output dataset never triggers further column additions: every
dictionary field that could be added already was. -/
theorem shimAddedCols_resolve (df : DF) (shim : ShimDict) :
    shimAddedCols (update_metadata_store_shim df shim) shim = [] := by
  rcases hr : df.rows with _ | ⟨r0, rest⟩
  · unfold shimAddedCols update_metadata_store_shim
    rw [hr]
    simp
  · unfold shimAddedCols
    have hne : (update_metadata_store_shim df shim).rows.isEmpty = false := by
      unfold update_metadata_store_shim
      rw [hr]
      simp
    rw [if_neg (by rw [hne]; exact fun h => nomatch h)]
    have hmem : ∀ e ∈ shim,
        (!(update_metadata_store_shim df shim).cols.contains e.1 && shimHitsEmpty e.2) = false := by
      intro e he
      by_cases hh : shimHitsEmpty e.2 = true
      · have hin : e.1 ∈ (update_metadata_store_shim df shim).cols := by
          by_cases hc : df.cols.contains e.1 = true
          · exact List.mem_append_left _ ((contains_eq_mem _ _).mp hc)
          · apply List.mem_append_right
            unfold shimAddedCols
            rw [if_neg (by rw [hr]; simp)]
            apply List.mem_map_of_mem Prod.fst
            rw [List.mem_filter]
            refine ⟨he, ?_⟩
            rw [Bool.and_eq_true]
            refine ⟨?_, hh⟩
            have hcf : df.cols.contains e.1 = false := Bool.eq_false_iff.mpr hc
            rw [hcf]
            rfl
          -- absent from the original columns: it was just added
        have : (update_metadata_store_shim df shim).cols.contains e.1 = true :=
          (contains_eq_mem _ _).mpr hin
        rw [this]
        rfl
      · rw [Bool.and_eq_false_iff]
        right
        exact Bool.eq_false_iff.mpr hh
    have : (shim.filter
        (fun e => !(update_metadata_store_shim df shim).cols.contains e.1 && shimHitsEmpty e.2)) = [] := by
      rw [List.filter_eq_nil_iff]
      intro e he
      rw [hmem e he]
      exact fun h => nomatch h
    rw [this]
    rfl

/-- C4 workhorse: full idempotence of the shim pass at dataset level. -/
theorem update_metadata_store_shim_idem (df : DF) (shim : ShimDict) :
    update_metadata_store_shim (update_metadata_store_shim df shim) shim
      = update_metadata_store_shim df shim := by
  have hadd := shimAddedCols_resolve df shim
  have hcols : (update_metadata_store_shim (update_metadata_store_shim df shim) shim).cols
      = (update_metadata_store_shim df shim).cols := by
    show (update_metadata_store_shim df shim).cols
        ++ shimAddedCols (update_metadata_store_shim df shim) shim
      = (update_metadata_store_shim df shim).cols
    rw [hadd, List.append_nil]
  have hrows : (update_metadata_store_shim (update_metadata_store_shim df shim) shim).rows
      = (update_metadata_store_shim df shim).rows := by
    show (update_metadata_store_shim df shim).rows.map _
      = (update_metadata_store_shim df shim).rows
    have hnc : (update_metadata_store_shim df shim).cols
        ++ shimAddedCols (update_metadata_store_shim df shim) shim
      = df.cols ++ shimAddedCols df shim := by
      rw [hadd, List.append_nil]
      rfl
    rw [hnc]
    show (df.rows.map _).map _ = df.rows.map _
    rw [List.map_map]
    apply List.map_congr_left
    intro r _
    show (df.cols ++ shimAddedCols df shim).map
        (fun c => (c, shimOutVal shim
          (mkRow (df.cols ++ shimAddedCols df shim) (fun c => shimOutVal shim r c)) c))
      = (df.cols ++ shimAddedCols df shim).map (fun c => (c, shimOutVal shim r c))
    apply List.map_congr_left
    intro c hc
    rw [shimOutVal_stable shim r _ c hc]
  calc update_metadata_store_shim (update_metadata_store_shim df shim) shim
      = DF.mk (update_metadata_store_shim (update_metadata_store_shim df shim) shim).cols
          (update_metadata_store_shim (update_metadata_store_shim df shim) shim).rows := rfl
    _ = DF.mk (update_metadata_store_shim df shim).cols
          (update_metadata_store_shim df shim).rows := by rw [hcols, hrows]
    _ = update_metadata_store_shim df shim := rfl

/-- The spec's declaration-order scan agrees with the embedded `find?`. -/
theorem spec_scan_eq_find (km : KeyMap) (v : String) :
    spec_scan km v = match km.find? (fun e => e.2.contains v) with
      | some e => e.1
      | none => v := by
  induction km with
  | nil => rfl
  | cons e rest ih =>
    show (if e.2.contains v then e.1 else spec_scan rest v) = _
    by_cases h : e.2.contains v = true
    · have hfc : List.find? (fun x => x.2.contains v) (e :: rest) = some e :=
        List.find?_cons_of_pos rest (by simpa using h)
      rw [if_pos h, hfc]
    · have hfc : List.find? (fun x => x.2.contains v) (e :: rest)
          = List.find? (fun x => x.2.contains v) rest :=
        List.find?_cons_of_neg rest (by simpa using h)
      rw [if_neg h, hfc, ih]

/-- The spec-worded resolution rule coincides with the code's value
rewriting. -/
theorem spec_resolve_value_eq (km : KeyMap) (v : String) :
    spec_resolve_value km v = resolveField km v := by
  unfold spec_resolve_value resolveField
  by_cases h : (km.map Prod.fst).contains v = true
  · rw [if_pos h, if_pos h]
  · rw [if_neg h, if_neg h, spec_scan_eq_find]

/-- Row extraction for the shim pass output. -/
theorem shim_rows_getD (df : DF) (shim : ShimDict) (i : Nat) (h : i < df.rows.length) :
    (update_metadata_store_shim df shim).rows.getD i []
      = mkRow (df.cols ++ shimAddedCols df shim)
          (fun f => shimOutVal shim (df.rows.getD i []) f) := by
  show (df.rows.map _).getD i [] = _
  rw [List.getD_eq_getElem?_getD, List.getElem?_map, List.getElem?_eq_getElem h,
    List.getD_eq_getElem?_getD, List.getElem?_eq_getElem h]
  rfl

/-- Output value of a governed, present field follows the spec rule. -/
theorem shim_value_governed (df : DF) (shim : ShimDict) (i : Nat) (f : String) (km : KeyMap)
    (hkm : shim.lookup f = some km) (hf : f ∈ df.cols) (hi : i < df.rows.length) :
    dfGet ((update_metadata_store_shim df shim).rows.getD i []) f
      = spec_resolve_value km (dfGet (df.rows.getD i []) f) := by
  rw [shim_rows_getD df shim i hi, dfGet_mkRow, if_pos (List.mem_append_left _ hf),
    shimOutVal_some shim _ f km hkm, spec_resolve_value_eq]

/-- Output value of an ungoverned, present field is unchanged. -/
theorem shim_value_ungoverned (df : DF) (shim : ShimDict) (i : Nat) (f : String)
    (hkm : shim.lookup f = none) (hf : f ∈ df.cols) (hi : i < df.rows.length) :
    dfGet ((update_metadata_store_shim df shim).rows.getD i []) f
      = dfGet (df.rows.getD i []) f := by
  rw [shim_rows_getD df shim i hi, dfGet_mkRow, if_pos (List.mem_append_left _ hf),
    shimOutVal_none shim _ f hkm]

/-- When every dictionary field is a dataset column, no column is added. -/
theorem shim_cols_of_subset (df : DF) (shim : ShimDict)
    (h : ∀ e ∈ shim, e.1 ∈ df.cols) :
    (update_metadata_store_shim df shim).cols = df.cols := by
  show df.cols ++ shimAddedCols df shim = df.cols
  have hadd : shimAddedCols df shim = [] := by
    unfold shimAddedCols
    by_cases hr : df.rows.isEmpty = true
    · rw [if_pos hr]
    · rw [if_neg hr]
      have hfil : shim.filter (fun e => !df.cols.contains e.1 && shimHitsEmpty e.2) = [] := by
        rw [List.filter_eq_nil_iff]
        intro e he
        have hc : df.cols.contains e.1 = true := (contains_eq_mem _ _).mpr (h e he)
        rw [hc]
        simp
      rw [hfil]
      rfl
  rw [hadd, List.append_nil]

/-- C3: for every dataset, shim dictionary, row and governed field `f`
present in the dataset, the resolved value of `f` is: unchanged when it is
a canonical key; else the first-declared canonical value whose synonym set
contains it; else unchanged.  In particular the Scenario A dictionary maps
a stainID of "he" to "H&E". -/
theorem C3_shim_resolution_rule :
    (∀ (df : DF) (shim : ShimDict) (i : Nat) (f : String) (km : KeyMap),
      shim.lookup f = some km → f ∈ df.cols → i < df.rows.length →
      dfGet ((update_metadata_store_shim df shim).rows.getD i []) f
        = spec_resolve_value km (dfGet (df.rows.getD i []) f))
    ∧ dfGet ((update_metadata_store_shim scenA_df scenA_shim).rows.getD 0 []) "stainID"
        = "H&E" := by
  constructor
  · intro df shim i f km hkm hf hi
    exact shim_value_governed df shim i f km hkm hf hi
  · decide

/-- Witness for C3 at Scenario A: every hypothesis holds there and the
resolved value follows the spec rule. -/
theorem C3_shim_resolution_rule_witness :
    (scenA_shim.lookup "stainID" = some [("H&E", ["he", "H and E"])]
      ∧ "stainID" ∈ scenA_df.cols ∧ 0 < scenA_df.rows.length)
    ∧ dfGet ((update_metadata_store_shim scenA_df scenA_shim).rows.getD 0 []) "stainID"
        = spec_resolve_value [("H&E", ["he", "H and E"])]
            (dfGet (scenA_df.rows.getD 0 []) "stainID") :=
  ⟨⟨by decide, by decide, by decide⟩,
    C3_shim_resolution_rule.1 scenA_df scenA_shim 0 "stainID" [("H&E", ["he", "H and E"])]
      (by decide) (by decide) (by decide)⟩

/-- C4: applying the shim resolver twice gives the same dataset as
applying it once, for every dataset and dictionary. -/
theorem C4_resolve_idempotent (df : DF) (shim : ShimDict) :
    update_metadata_store_shim (update_metadata_store_shim df shim) shim
      = update_metadata_store_shim df shim :=
  update_metadata_store_shim_idem df shim

/-- C10 counterexample: a dictionary field absent from the dataset whose
synonym set contains the empty string is appended as a new column, so the
output field set differs from the input field set. -/
theorem C10_frame_counterexample :
    (update_metadata_store_shim c10_df c10_shim).cols = ["a", "stainID"]
    ∧ c10_df.cols = ["a"]
    ∧ "stainID" ∉ c10_df.cols :=
  ⟨by decide, by decide, by decide⟩

/-- C10 amended: fields are never removed; the field set is preserved
whenever every dictionary field is already a dataset column; and the value
of any present field not governed by the dictionary is unchanged. -/
theorem C10_frame_amended (df : DF) (shim : ShimDict) :
    ((∀ e ∈ shim, e.1 ∈ df.cols) → (update_metadata_store_shim df shim).cols = df.cols)
    ∧ (∀ c ∈ df.cols, c ∈ (update_metadata_store_shim df shim).cols)
    ∧ (∀ (i : Nat) (f : String), shim.lookup f = none → f ∈ df.cols →
        i < df.rows.length →
        dfGet ((update_metadata_store_shim df shim).rows.getD i []) f
          = dfGet (df.rows.getD i []) f) := by
  refine ⟨fun h => shim_cols_of_subset df shim h, ?_, ?_⟩
  · intro c hc
    show c ∈ df.cols ++ shimAddedCols df shim
    exact List.mem_append_left _ hc
  · intro i f hkm hf hi
    exact shim_value_ungoverned df shim i f hkm hf hi

/-- Witness for C10 amended: with all dictionary fields present the field
set is preserved exactly. -/
theorem C10_frame_amended_witness :
    (∀ e ∈ scenA_shim, e.1 ∈ scenA_df.cols)
    ∧ (update_metadata_store_shim scenA_df scenA_shim).cols = scenA_df.cols :=
  ⟨by decide, (C10_frame_amended scenA_df scenA_shim).1 (by decide)⟩

end ShimLemmas

section MapperLemmas

/-- A successful association-list lookup comes from a list member. -/
theorem mem_of_lookup_str {l : List (String × String)} {k b : String}
    (h : l.lookup k = some b) : (k, b) ∈ l := by
  rcases List.lookup_eq_some_iff.mp h with ⟨l₁, l₂, rfl, _⟩
  exact List.mem_append_right _ (List.mem_cons_self _ _)

/-- Reading a column list at a valid index. -/
theorem colVals_getD (df : DF) (c : String) (i : Nat) (hi : i < df.rows.length) :
    (colVals df c).getD i "" = dfGet (df.rows.getD i []) c := by
  unfold colVals
  rw [List.getD_eq_getElem?_getD, List.getElem?_map, List.getElem?_eq_getElem hi,
    List.getD_eq_getElem?_getD, List.getElem?_eq_getElem hi]
  rfl

/-- Row extraction for a pandas column assignment. -/
theorem setCol_getD (df : DF) (n : String) (vals : List String) (i : Nat)
    (hi : i < df.rows.length) (hv : vals.length = df.rows.length) :
    (setCol df n vals).rows.getD i []
      = mkRow (setCol df n vals).cols
          (fun c => if c = n then vals.getD i "" else dfGet (df.rows.getD i []) c) := by
  have h2 : i < vals.length := by rw [hv]; exact hi
  have hz : (List.zipWith (fun r v =>
      mkRow (if df.cols.contains n then df.cols else df.cols ++ [n])
        (fun c => if c = n then v else dfGet r c)) df.rows vals)[i]?
      = some (mkRow (if df.cols.contains n then df.cols else df.cols ++ [n])
          (fun c => if c = n then vals[i] else dfGet (df.rows[i]) c)) := by
    rw [List.getElem?_zipWith, List.getElem?_eq_getElem hi, List.getElem?_eq_getElem h2]
  have hv1 : vals.getD i "" = vals[i] := by
    rw [List.getD_eq_getElem?_getD, List.getElem?_eq_getElem h2]
    rfl
  have hr1 : df.rows.getD i [] = df.rows[i] := by
    rw [List.getD_eq_getElem?_getD, List.getElem?_eq_getElem hi]
    rfl
  show (List.zipWith _ df.rows vals).getD i [] = _
  rw [List.getD_eq_getElem?_getD, hz, hv1, hr1]
  rfl

/-- Columns after a pandas column assignment. -/
theorem setCol_cols (df : DF) (n : String) (vals : List String) :
    (setCol df n vals).cols = if df.cols.contains n then df.cols else df.cols ++ [n] := rfl

/-- Unfolding: assignment from an unmapped field. -/
theorem applyStdAssign_none (df : DF) (std : String) :
    applyStdAssign df none std = setCol df std (df.rows.map fun _ => "") := rfl

/-- Unfolding: assignment from a truthy mapping naming a current column. -/
theorem applyStdAssign_some_pos (df : DF) (c std : String)
    (h : ((c != "") && df.cols.contains c) = true) :
    applyStdAssign df (some c) std = setCol df std (colVals df c) := by
  show (if (c != "") && df.cols.contains c then setCol df std (colVals df c)
      else setCol df std (df.rows.map fun _ => "")) = _
  rw [if_pos h]

/-- Unfolding: assignment from a falsy or dangling mapping. -/
theorem applyStdAssign_some_neg (df : DF) (c std : String)
    (h : ¬((c != "") && df.cols.contains c) = true) :
    applyStdAssign df (some c) std = setCol df std (df.rows.map fun _ => "") := by
  show (if (c != "") && df.cols.contains c then setCol df std (colVals df c)
      else setCol df std (df.rows.map fun _ => "")) = _
  rw [if_neg h]

/-- Columns after one standardized assignment. -/
theorem applyStdAssign_cols (df : DF) (src : Option String) (std : String) :
    (applyStdAssign df src std).cols
      = if df.cols.contains std then df.cols else df.cols ++ [std] := by
  cases src with
  | none => rw [applyStdAssign_none, setCol_cols]
  | some c =>
    by_cases h : ((c != "") && df.cols.contains c) = true
    · rw [applyStdAssign_some_pos df c std h, setCol_cols]
    · rw [applyStdAssign_some_neg df c std h, setCol_cols]

/-- Membership in the columns after one standardized assignment. -/
theorem mem_applyStdAssign_cols (df : DF) (src : Option String) (std : String) (c : String) :
    c ∈ (applyStdAssign df src std).cols ↔ c ∈ df.cols ∨ c = std := by
  rw [applyStdAssign_cols]
  by_cases h : df.cols.contains std = true
  · rw [if_pos h]
    constructor
    · exact fun hc => Or.inl hc
    · rintro (hc | rfl)
      · exact hc
      · exact (contains_eq_mem _ _).mp h
  · rw [if_neg h]
    simp

/-- A pandas column assignment keeps the number of rows when the assigned
values match the row count. -/
theorem setCol_length (df : DF) (n : String) (vals : List String)
    (hv : vals.length = df.rows.length) :
    (setCol df n vals).rows.length = df.rows.length := by
  show (List.zipWith _ df.rows vals).length = _
  rw [List.length_zipWith, hv, Nat.min_self]

/-- A column read yields one value per row. -/
theorem colVals_length (df : DF) (c : String) : (colVals df c).length = df.rows.length := by
  unfold colVals
  rw [List.length_map]

/-- One standardized assignment keeps the number of rows. -/
theorem applyStdAssign_length (df : DF) (src : Option String) (std : String) :
    (applyStdAssign df src std).rows.length = df.rows.length := by
  cases src with
  | none =>
    rw [applyStdAssign_none]
    exact setCol_length df std _ (by rw [List.length_map])
  | some c =>
    by_cases h : ((c != "") && df.cols.contains c) = true
    · rw [applyStdAssign_some_pos df c std h]
      exact setCol_length df std _ (colVals_length df c)
    · rw [applyStdAssign_some_neg df c std h]
      exact setCol_length df std _ (by rw [List.length_map])

/-- Cell value after one standardized assignment, for a column that is
present afterwards. -/
theorem applyStdAssign_dfGet (df : DF) (src : Option String) (std : String) (i : Nat)
    (x : String) (hi : i < df.rows.length) (hx : x ∈ (applyStdAssign df src std).cols) :
    dfGet ((applyStdAssign df src std).rows.getD i []) x
      = if x = std then assignedVal df src i else dfGet (df.rows.getD i []) x := by
  have hmv : (df.rows.map fun _ => ("" : String)).getD i "" = "" := by
    rw [List.getD_eq_getElem?_getD, List.getElem?_map, List.getElem?_eq_getElem hi]
    rfl
  cases src with
  | none =>
    rw [applyStdAssign_none] at hx ⊢
    rw [setCol_getD df std _ i hi (by rw [List.length_map]), dfGet_mkRow, if_pos hx, hmv]
    rfl
  | some c =>
    by_cases h : ((c != "") && df.cols.contains c) = true
    · rw [applyStdAssign_some_pos df c std h] at hx ⊢
      rw [setCol_getD df std _ i hi (colVals_length df c), dfGet_mkRow, if_pos hx,
        colVals_getD df c i hi]
      show _ = if x = std
          then (if (c != "") && df.cols.contains c then dfGet (df.rows.getD i []) c else "")
          else dfGet (df.rows.getD i []) x
      rw [if_pos h]
    · rw [applyStdAssign_some_neg df c std h] at hx ⊢
      rw [setCol_getD df std _ i hi (by rw [List.length_map]), dfGet_mkRow, if_pos hx, hmv]
      show _ = if x = std
          then (if (c != "") && df.cols.contains c then dfGet (df.rows.getD i []) c else "")
          else dfGet (df.rows.getD i []) x
      rw [if_neg h]

/-- A present column other than the assigned one keeps its value. -/
theorem applyStdAssign_dfGet_other (d : DF) (src : Option String) (std : String) (i : Nat)
    (x : String) (hi : i < d.rows.length) (hx : x ∈ d.cols) (hne : x ≠ std) :
    dfGet ((applyStdAssign d src std).rows.getD i []) x = dfGet (d.rows.getD i []) x := by
  rw [applyStdAssign_dfGet d src std i x hi
    ((mem_applyStdAssign_cols d src std x).mpr (Or.inl hx)), if_neg hne]

/-- The assigned standardized column takes the source value (or empty). -/
theorem applyStdAssign_dfGet_self (d : DF) (src : Option String) (std : String) (i : Nat)
    (hi : i < d.rows.length) :
    dfGet ((applyStdAssign d src std).rows.getD i []) std = assignedVal d src i := by
  rw [applyStdAssign_dfGet d src std i std hi
    ((mem_applyStdAssign_cols d src std std).mpr (Or.inr rfl)), if_pos rfl]

/-- Row extraction for the reorder stage. -/
theorem reorderStd_getD (d : DF) (i : Nat) (hi : i < d.rows.length) :
    (reorderStd d).rows.getD i []
      = mkRow (stdColsList ++ d.cols.filter (fun c => !stdColsList.contains c))
          (fun c => dfGet (d.rows.getD i []) c) := by
  show (d.rows.map _).getD i [] = _
  rw [List.getD_eq_getElem?_getD, List.getElem?_map, List.getElem?_eq_getElem hi,
    List.getD_eq_getElem?_getD, List.getElem?_eq_getElem hi]
  rfl

/-- With rows and mappings both non-empty the guard falls through to the
three assignments followed by the reorder. -/
theorem apply_column_mappings_ne (df : DF) (m : List (String × String))
    (hr : df.rows ≠ []) (hm : m ≠ []) :
    apply_column_mappings df m = reorderStd (acmStage3 df m) := by
  unfold apply_column_mappings
  have h1 : df.rows.isEmpty = false := List.isEmpty_eq_false.mpr hr
  have h2 : m.isEmpty = false := List.isEmpty_eq_false.mpr hm
  rw [h1, h2]
  rfl

/-- Row counts through the three assignment stages. -/
theorem acmStage3_length (df : DF) (m : List (String × String)) :
    (acmStage3 df m).rows.length = df.rows.length := by
  unfold acmStage3 acmStage2 acmStage1
  rw [applyStdAssign_length, applyStdAssign_length, applyStdAssign_length]

/-- Row count after the second stage. -/
theorem acmStage2_length (df : DF) (m : List (String × String)) :
    (acmStage2 df m).rows.length = df.rows.length := by
  unfold acmStage2 acmStage1
  rw [applyStdAssign_length, applyStdAssign_length]

/-- A column of the input survives the first two stages with its value. -/
theorem acm_pass_through (df : DF) (m : List (String × String)) (i : Nat) (c : String)
    (hi : i < df.rows.length) (hc : c ∈ df.cols)
    (h1 : c ≠ "bdsaStainID") (h2 : c ≠ "bdsaRegionID") :
    dfGet ((acmStage2 df m).rows.getD i []) c = dfGet (df.rows.getD i []) c := by
  unfold acmStage2
  rw [applyStdAssign_dfGet_other _ _ _ i c
    (by unfold acmStage1; rw [applyStdAssign_length]; exact hi)
    (by unfold acmStage1; exact (mem_applyStdAssign_cols _ _ _ c).mpr (Or.inl hc)) h2]
  unfold acmStage1
  rw [applyStdAssign_dfGet_other _ _ _ i c hi hc h1]

/-- Row count after the first stage. -/
theorem acmStage1_length (df : DF) (m : List (String × String)) :
    (acmStage1 df m).rows.length = df.rows.length := by
  unfold acmStage1
  rw [applyStdAssign_length]

/-- Column membership is unchanged by the first stage for non-stain names. -/
theorem acmStage1_contains (df : DF) (m : List (String × String)) (c : String)
    (h1 : c ≠ "bdsaStainID") :
    (acmStage1 df m).cols.contains c = df.cols.contains c := by
  by_cases hdc : df.cols.contains c = true
  · rw [hdc]
    exact (contains_eq_mem _ _).mpr (by
      unfold acmStage1
      exact (mem_applyStdAssign_cols _ _ _ c).mpr (Or.inl ((contains_eq_mem _ _).mp hdc)))
  · rw [Bool.eq_false_iff.mpr hdc, Bool.eq_false_iff]
    intro hq
    have hqm := (contains_eq_mem _ _).mp hq
    unfold acmStage1 at hqm
    rcases (mem_applyStdAssign_cols _ _ _ c).mp hqm with h | h
    · exact hdc ((contains_eq_mem _ _).mpr h)
    · exact h1 h

/-- Column membership is unchanged by the first two stages for
non-standardized names. -/
theorem acmStage2_contains (df : DF) (m : List (String × String)) (c : String)
    (h1 : c ≠ "bdsaStainID") (h2 : c ≠ "bdsaRegionID") :
    (acmStage2 df m).cols.contains c = df.cols.contains c := by
  have hs1 := acmStage1_contains df m c h1
  by_cases hdc : df.cols.contains c = true
  · rw [hdc]
    have hmem : c ∈ (acmStage1 df m).cols := (contains_eq_mem _ _).mp (by rw [hs1, hdc])
    exact (contains_eq_mem _ _).mpr (by
      unfold acmStage2
      exact (mem_applyStdAssign_cols _ _ _ c).mpr (Or.inl hmem))
  · rw [Bool.eq_false_iff.mpr hdc, Bool.eq_false_iff]
    intro hq
    have hqm := (contains_eq_mem _ _).mp hq
    unfold acmStage2 at hqm
    rcases (mem_applyStdAssign_cols _ _ _ c).mp hqm with h | h
    · have hcc : (acmStage1 df m).cols.contains c = true := (contains_eq_mem _ _).mpr h
      rw [hs1] at hcc
      exact hdc hcc
    · exact h2 h

/-- The standardized stain value follows the spec rule (its source is read
before any standardized column is written). -/
theorem acm_value_stain (df : DF) (m : List (String × String)) (i : Nat)
    (hsafe : ∀ p ∈ m, p.2 ∉ stdColsList ∧ p.2 ≠ "") (hi : i < df.rows.length) :
    dfGet ((acmStage3 df m).rows.getD i []) "bdsaStainID"
      = spec_std_value df m (df.rows.getD i []) "stainID" := by
  unfold acmStage3
  rw [applyStdAssign_dfGet_other (acmStage2 df m) (m.lookup "caseID") "bdsaCaseID" i
    "bdsaStainID" (by rw [acmStage2_length]; exact hi)
    (by
      unfold acmStage2
      exact (mem_applyStdAssign_cols _ _ _ _).mpr (Or.inl (by
        unfold acmStage1
        exact (mem_applyStdAssign_cols _ _ _ _).mpr (Or.inr rfl))))
    (by decide)]
  unfold acmStage2
  rw [applyStdAssign_dfGet_other (acmStage1 df m) (m.lookup "regionName") "bdsaRegionID" i
    "bdsaStainID" (by rw [acmStage1_length]; exact hi)
    (by
      unfold acmStage1
      exact (mem_applyStdAssign_cols _ _ _ _).mpr (Or.inr rfl))
    (by decide)]
  unfold acmStage1
  rw [applyStdAssign_dfGet_self df (m.lookup "stainID") "bdsaStainID" i hi]
  rcases hlk : m.lookup "stainID" with _ | c
  · unfold assignedVal spec_std_value
    rw [hlk]
  · obtain ⟨hnstd, hne⟩ := hsafe _ (mem_of_lookup_str hlk)
    have hbne : (c != "") = true := by simpa using hne
    unfold assignedVal spec_std_value
    rw [hlk]
    show (if (c != "" && df.cols.contains c) = true then dfGet (df.rows.getD i []) c else "")
        = (if df.cols.contains c = true then dfGet (df.rows.getD i []) c else "")
    rw [hbne, Bool.true_and]

/-- The standardized region value follows the spec rule when the mapping
avoids standardized names. -/
theorem acm_value_region (df : DF) (m : List (String × String)) (i : Nat)
    (hsafe : ∀ p ∈ m, p.2 ∉ stdColsList ∧ p.2 ≠ "") (hi : i < df.rows.length) :
    dfGet ((acmStage3 df m).rows.getD i []) "bdsaRegionID"
      = spec_std_value df m (df.rows.getD i []) "regionName" := by
  unfold acmStage3
  rw [applyStdAssign_dfGet_other (acmStage2 df m) (m.lookup "caseID") "bdsaCaseID" i
    "bdsaRegionID" (by rw [acmStage2_length]; exact hi)
    (by
      unfold acmStage2
      exact (mem_applyStdAssign_cols _ _ _ _).mpr (Or.inr rfl))
    (by decide)]
  unfold acmStage2
  rw [applyStdAssign_dfGet_self (acmStage1 df m) (m.lookup "regionName") "bdsaRegionID" i
    (by rw [acmStage1_length]; exact hi)]
  rcases hlk : m.lookup "regionName" with _ | c
  · unfold assignedVal spec_std_value
    rw [hlk]
  · obtain ⟨hnstd, hne⟩ := hsafe _ (mem_of_lookup_str hlk)
    have hbne : (c != "") = true := by simpa using hne
    have hcS : c ≠ "bdsaStainID" := fun h => hnstd (by rw [h]; decide)
    unfold assignedVal spec_std_value
    rw [hlk]
    show (if (c != "" && (acmStage1 df m).cols.contains c) = true
        then dfGet ((acmStage1 df m).rows.getD i []) c else "")
        = (if df.cols.contains c = true then dfGet (df.rows.getD i []) c else "")
    rw [hbne, Bool.true_and, acmStage1_contains df m c hcS]
    by_cases hdc : df.cols.contains c = true
    · rw [if_pos hdc, if_pos hdc]
      unfold acmStage1
      rw [applyStdAssign_dfGet_other df (m.lookup "stainID") "bdsaStainID" i c hi
        ((contains_eq_mem _ _).mp hdc) hcS]
    · rw [if_neg hdc, if_neg hdc]

/-- The standardized case value follows the spec rule when the mapping
avoids standardized names. -/
theorem acm_value_case (df : DF) (m : List (String × String)) (i : Nat)
    (hsafe : ∀ p ∈ m, p.2 ∉ stdColsList ∧ p.2 ≠ "") (hi : i < df.rows.length) :
    dfGet ((acmStage3 df m).rows.getD i []) "bdsaCaseID"
      = spec_std_value df m (df.rows.getD i []) "caseID" := by
  unfold acmStage3
  rw [applyStdAssign_dfGet_self (acmStage2 df m) (m.lookup "caseID") "bdsaCaseID" i
    (by rw [acmStage2_length]; exact hi)]
  rcases hlk : m.lookup "caseID" with _ | c
  · unfold assignedVal spec_std_value
    rw [hlk]
  · obtain ⟨hnstd, hne⟩ := hsafe _ (mem_of_lookup_str hlk)
    have hbne : (c != "") = true := by simpa using hne
    have hcS : c ≠ "bdsaStainID" := fun h => hnstd (by rw [h]; decide)
    have hcR : c ≠ "bdsaRegionID" := fun h => hnstd (by rw [h]; decide)
    unfold assignedVal spec_std_value
    rw [hlk]
    show (if (c != "" && (acmStage2 df m).cols.contains c) = true
        then dfGet ((acmStage2 df m).rows.getD i []) c else "")
        = (if df.cols.contains c = true then dfGet (df.rows.getD i []) c else "")
    rw [hbne, Bool.true_and, acmStage2_contains df m c hcS hcR]
    by_cases hdc : df.cols.contains c = true
    · rw [if_pos hdc, if_pos hdc]
      exact acm_pass_through df m i c hi ((contains_eq_mem _ _).mp hdc) hcS hcR
    · rw [if_neg hdc, if_neg hdc]

/-- One standardized assignment does not change the non-standardized
column remainder. -/
theorem applyStdAssign_filter (d : DF) (src : Option String) (std : String)
    (hstd : stdColsList.contains std = true) :
    (applyStdAssign d src std).cols.filter (fun c => !stdColsList.contains c)
      = d.cols.filter (fun c => !stdColsList.contains c) := by
  rw [applyStdAssign_cols]
  by_cases h : d.cols.contains std = true
  · rw [if_pos h]
  · rw [if_neg h, List.filter_append]
    have : List.filter (fun c => !stdColsList.contains c) [std] = [] := by
      simp only [List.filter_cons, hstd, List.filter_nil]
      rfl
    rw [this, List.append_nil]

/-- The export reorder is the identity on a frame whose columns are the
standardized block followed by a standardized-free remainder. -/
theorem export_csv_cols_of (d : DF) (rest : List String)
    (hd : d.cols = stdColsList ++ rest)
    (hnostd : ∀ c ∈ rest, ¬stdColsList.contains c = true) :
    export_csv_cols d = d.cols := by
  unfold export_csv_cols
  rw [hd]
  have hany : ((stdColsList ++ rest).any (fun c => stdColsList.contains c)) = true :=
    List.any_eq_true.mpr ⟨"bdsaCaseID", List.mem_append_left _ (by decide), by decide⟩
  rw [if_pos hany]
  have hpres : stdColsList.filter (fun c => (stdColsList ++ rest).contains c) = stdColsList :=
    List.filter_eq_self.mpr (fun a ha =>
      (contains_eq_mem _ _).mpr (List.mem_append_left _ ha))
  have hrest2 : (stdColsList ++ rest).filter (fun c => !stdColsList.contains c) = rest := by
    rw [List.filter_append]
    have h1 : stdColsList.filter (fun c => !stdColsList.contains c) = [] := by decide
    have h2 : rest.filter (fun c => !stdColsList.contains c) = rest :=
      List.filter_eq_self.mpr (fun a ha => by
        rw [Bool.eq_false_iff.mpr (hnostd a ha)]
        rfl)
    rw [h1, h2, List.nil_append]
  rw [hpres, hrest2]

/-- C5 counterexample: (i) with an empty mapping the guard returns the
dataset unchanged, so no standardized field is produced at all; (ii) when
a canonical field is mapped to a column that is itself a standardized name
(here caseID mapped to bdsaStainID, a column of the dataset holding "x"),
the earlier blank assignment to that name clobbers the source before it is
read, so the copied value is "" instead of the verbatim "x". -/
theorem C5_std_fields_counterexample :
    ((apply_column_mappings c5a_df []).cols = ["x"]
      ∧ "bdsaCaseID" ∉ (apply_column_mappings c5a_df []).cols)
    ∧ (c5b_map.lookup "caseID" = some "bdsaStainID"
      ∧ "bdsaStainID" ∈ c5b_df.cols
      ∧ dfGet (c5b_df.rows.getD 0 []) "bdsaStainID" = "x"
      ∧ dfGet ((apply_column_mappings c5b_df c5b_map).rows.getD 0 []) "bdsaCaseID" = "") :=
  ⟨⟨by decide, by decide⟩, by decide, by decide, by decide, by decide⟩

/-- C5 amended: provided the mapping is non-empty and no mapping value is
a standardized output name or the empty string, every output row carries
all three standardized fields, each equal to the verbatim source value of
its mapped column when that column is present in the dataset, and equal to
"" when the field is unmapped or its mapped column is absent; the
computation is total, so no error is possible. -/
theorem C5_std_fields_amended (df : DF) (m : List (String × String)) (i : Nat)
    (hm : m ≠ []) (hsafe : ∀ p ∈ m, p.2 ∉ stdColsList ∧ p.2 ≠ "")
    (hi : i < df.rows.length) :
    ((((apply_column_mappings df m).rows.getD i []).lookup "bdsaCaseID").isSome = true
      ∧ dfGet ((apply_column_mappings df m).rows.getD i []) "bdsaCaseID"
          = spec_std_value df m (df.rows.getD i []) "caseID")
    ∧ ((((apply_column_mappings df m).rows.getD i []).lookup "bdsaRegionID").isSome = true
      ∧ dfGet ((apply_column_mappings df m).rows.getD i []) "bdsaRegionID"
          = spec_std_value df m (df.rows.getD i []) "regionName")
    ∧ ((((apply_column_mappings df m).rows.getD i []).lookup "bdsaStainID").isSome = true
      ∧ dfGet ((apply_column_mappings df m).rows.getD i []) "bdsaStainID"
          = spec_std_value df m (df.rows.getD i []) "stainID") := by
  have hr : df.rows ≠ [] := List.length_pos.mp (Nat.lt_of_le_of_lt (Nat.zero_le i) hi)
  have hi3 : i < (acmStage3 df m).rows.length := by
    rw [acmStage3_length]
    exact hi
  have hroweq : (apply_column_mappings df m).rows.getD i []
      = mkRow (stdColsList ++ (acmStage3 df m).cols.filter (fun c => !stdColsList.contains c))
          (fun c => dfGet ((acmStage3 df m).rows.getD i []) c) := by
    rw [apply_column_mappings_ne df m hr hm]
    exact reorderStd_getD (acmStage3 df m) i hi3
  refine ⟨⟨?_, ?_⟩, ⟨?_, ?_⟩, ⟨?_, ?_⟩⟩
  · rw [hroweq, lookup_mkRow,
      if_pos (List.mem_append_left _ (show "bdsaCaseID" ∈ stdColsList by decide))]
    rfl
  · rw [hroweq, dfGet_mkRow,
      if_pos (List.mem_append_left _ (show "bdsaCaseID" ∈ stdColsList by decide))]
    exact acm_value_case df m i hsafe hi
  · rw [hroweq, lookup_mkRow,
      if_pos (List.mem_append_left _ (show "bdsaRegionID" ∈ stdColsList by decide))]
    rfl
  · rw [hroweq, dfGet_mkRow,
      if_pos (List.mem_append_left _ (show "bdsaRegionID" ∈ stdColsList by decide))]
    exact acm_value_region df m i hsafe hi
  · rw [hroweq, lookup_mkRow,
      if_pos (List.mem_append_left _ (show "bdsaStainID" ∈ stdColsList by decide))]
    rfl
  · rw [hroweq, dfGet_mkRow,
      if_pos (List.mem_append_left _ (show "bdsaStainID" ∈ stdColsList by decide))]
    exact acm_value_stain df m i hsafe hi

/-- Witness for C5 amended: a well-behaved mapping on a concrete dataset;
the case field copies its mapped column verbatim. -/
theorem C5_std_fields_amended_witness :
    (okMap ≠ [] ∧ (∀ p ∈ okMap, p.2 ∉ stdColsList ∧ p.2 ≠ "") ∧ 0 < c7_df.rows.length)
    ∧ dfGet ((apply_column_mappings c7_df okMap).rows.getD 0 []) "bdsaCaseID"
        = spec_std_value c7_df okMap (c7_df.rows.getD 0 []) "caseID" :=
  ⟨⟨by decide, by decide, by decide⟩,
    ((C5_std_fields_amended c7_df okMap 0 (by decide) (by decide) (by decide)).1).2⟩

/-- C9 counterexample: on a dataset with no rows, `apply_column_mappings`
returns the input unchanged; the output columns neither start with the
standardized block nor contain it. -/
theorem C9_field_order_counterexample :
    (apply_column_mappings c9_df c9_map).cols = ["x"]
    ∧ "bdsaCaseID" ∉ (apply_column_mappings c9_df c9_map).cols :=
  ⟨by decide, by decide⟩

/-- C9 amended: when the dataset and the mapping are both non-empty, the
harmonized columns are exactly the three standardized fields in fixed
order followed by the original columns (standardized names removed) in
their original relative order, and the CSV export reorder leaves this
layout unchanged. -/
theorem C9_field_order_amended (df : DF) (m : List (String × String))
    (hr : df.rows ≠ []) (hm : m ≠ []) :
    (apply_column_mappings df m).cols
      = stdColsList ++ df.cols.filter (fun c => !stdColsList.contains c)
    ∧ export_csv_cols (apply_column_mappings df m)
      = (apply_column_mappings df m).cols := by
  have hcols : (apply_column_mappings df m).cols
      = stdColsList ++ df.cols.filter (fun c => !stdColsList.contains c) := by
    rw [apply_column_mappings_ne df m hr hm]
    show stdColsList ++ (acmStage3 df m).cols.filter (fun c => !stdColsList.contains c) = _
    have h3 : (acmStage3 df m).cols.filter (fun c => !stdColsList.contains c)
        = df.cols.filter (fun c => !stdColsList.contains c) := by
      unfold acmStage3 acmStage2 acmStage1
      rw [applyStdAssign_filter _ _ _ (by decide), applyStdAssign_filter _ _ _ (by decide),
        applyStdAssign_filter _ _ _ (by decide)]
    rw [h3]
  refine ⟨hcols, ?_⟩
  refine export_csv_cols_of _ (df.cols.filter (fun c => !stdColsList.contains c)) hcols ?_
  intro c hc hq
  have h := (List.mem_filter.mp hc).2
  rw [hq] at h
  exact nomatch h

/-- Witness for C9 amended on a concrete dataset and mapping. -/
theorem C9_field_order_amended_witness :
    (c7_df.rows ≠ [] ∧ okMap ≠ [])
    ∧ (apply_column_mappings c7_df okMap).cols
        = stdColsList ++ c7_df.cols.filter (fun c => !stdColsList.contains c)
    ∧ export_csv_cols (apply_column_mappings c7_df okMap)
        = (apply_column_mappings c7_df okMap).cols :=
  ⟨⟨by decide, by decide⟩, C9_field_order_amended c7_df okMap (by decide) (by decide)⟩

end MapperLemmas

section StatsLemmas

/-- The empty-store guard of both variants returns an empty report. -/
theorem py_stats_empty (validStains validRegions : List JVal)
    (mappings : List (String × String)) (cols : List String) (sc rc : Bool) :
    py_get_metadata_stats validStains validRegions mappings ⟨cols, []⟩ sc rc = ⟨[], [], []⟩ :=
  rfl

/-- The app variant also returns an empty report on an empty store. -/
theorem app_stats_empty (validStains validRegions : List JVal)
    (cols : List String) (sc rc : Bool) :
    app_get_metadata_stats validStains validRegions ⟨cols, []⟩ sc rc = ⟨[], [], []⟩ :=
  rfl

/-- The app-variant stain histogram is the class-restricted counter:
invalid values when the switch is on, valid values when it is off. -/
theorem app_stains_histogram (vs vr : List JVal) (df : DF) (sc rc : Bool) (c : String)
    (hrows : df.rows ≠ []) (hcol : app_resolve_col stainAliasesApp df.cols = some c) :
    (app_get_metadata_stats vs vr df sc rc).stains
      = spec_histogram vs (colVals df c) sc := by
  have hie : df.rows.isEmpty = false := List.isEmpty_eq_false.mpr hrows
  have hieP : (df.rows.isEmpty = true) = False := by
    rw [hie]
    simp
  simp only [app_get_metadata_stats, hieP, if_false, hcol]
  rfl

/-- The pythonApp stain histogram with the switch on counts every value of
the resolved column regardless of validity. -/
theorem py_stains_all (vs vr : List JVal) (m : List (String × String)) (df : DF) (rc : Bool)
    (hrows : df.rows ≠ [])
    (hcol : colOk (py_resolve_col "bdsaStainID" (m.lookup "stainID") stainAliasesPy df.cols)
      df.cols = true) :
    (py_get_metadata_stats vs vr m df true rc).stains
      = countList (colVals df
          ((py_resolve_col "bdsaStainID" (m.lookup "stainID") stainAliasesPy df.cols).getD "")) := by
  have hie : df.rows.isEmpty = false := List.isEmpty_eq_false.mpr hrows
  have hieP : (df.rows.isEmpty = true) = False := by
    rw [hie]
    simp
  simp only [py_get_metadata_stats, hieP, if_false, hcol, Bool.true_and, if_true]

/-- The pythonApp stain histogram with the switch off is empty. -/
theorem py_stains_off (vs vr : List JVal) (m : List (String × String)) (df : DF) (rc : Bool)
    (hrows : df.rows ≠ []) :
    (py_get_metadata_stats vs vr m df false rc).stains = [] := by
  have hie : df.rows.isEmpty = false := List.isEmpty_eq_false.mpr hrows
  have hieP : (df.rows.isEmpty = true) = False := by
    rw [hie]
    simp
  simp only [py_get_metadata_stats, hieP, if_false, Bool.and_false]
  rfl

/-- The Files summary row shows the pythonApp composite count. -/
theorem py_summary_files (vs vr : List JVal) (m : List (String × String)) (df : DF)
    (sc rc : Bool) (hrows : df.rows ≠ []) :
    (py_get_metadata_stats vs vr m df sc rc).summary.head?
      = some ["Files", pctString (py_valid_files vs vr df
          (py_resolve_col "bdsaStainID" (m.lookup "stainID") stainAliasesPy df.cols)
          (py_resolve_col "bdsaRegionID" (m.lookup "regionName") regionAliasesPy df.cols))
          df.rows.length] := by
  have hie : df.rows.isEmpty = false := List.isEmpty_eq_false.mpr hrows
  have hieP : (df.rows.isEmpty = true) = False := by
    rw [hie]
    simp
  have hposP : (df.rows.length > 0) = True := eq_true (List.length_pos.mpr hrows)
  simp only [py_get_metadata_stats, hieP, if_false, hposP, if_true]
  rfl

/-- The stainID summary rows when the stain column resolves. -/
theorem py_summary_stain_ok (vs vr : List JVal) (m : List (String × String)) (df : DF)
    (sc rc : Bool) (hrows : df.rows ≠ [])
    (hcol : colOk (py_resolve_col "bdsaStainID" (m.lookup "stainID") stainAliasesPy df.cols)
      df.cols = true) :
    ["stainID", pctString (validCount vs df
        ((py_resolve_col "bdsaStainID" (m.lookup "stainID") stainAliasesPy df.cols).getD ""))
        df.rows.length]
      ∈ (py_get_metadata_stats vs vr m df sc rc).summary
    ∧ ["stainID column",
        (py_resolve_col "bdsaStainID" (m.lookup "stainID") stainAliasesPy df.cols).getD ""]
      ∈ (py_get_metadata_stats vs vr m df sc rc).summary := by
  have hie : df.rows.isEmpty = false := List.isEmpty_eq_false.mpr hrows
  have hieP : (df.rows.isEmpty = true) = False := by
    rw [hie]
    simp
  have hposP : (df.rows.length > 0) = True := eq_true (List.length_pos.mpr hrows)
  have hcolP : (colOk (py_resolve_col "bdsaStainID" (m.lookup "stainID") stainAliasesPy
      df.cols) df.cols = true) = True := eq_true hcol
  simp only [py_get_metadata_stats, hieP, if_false, hposP, hcolP, if_true]
  constructor
  · exact List.mem_append_left _ (List.mem_append_right _ (List.mem_cons_self _ _))
  · exact List.mem_append_left _ (List.mem_append_right _
      (List.mem_cons_of_mem _ (List.mem_cons_self _ _)))

/-- The stainID summary row is the not-found marker when the stain column
does not resolve. -/
theorem py_summary_stain_marker (vs vr : List JVal) (m : List (String × String)) (df : DF)
    (sc rc : Bool) (hrows : df.rows ≠ [])
    (hcol : colOk (py_resolve_col "bdsaStainID" (m.lookup "stainID") stainAliasesPy df.cols)
      df.cols = false) :
    ["stainID", pyMarker] ∈ (py_get_metadata_stats vs vr m df sc rc).summary := by
  have hie : df.rows.isEmpty = false := List.isEmpty_eq_false.mpr hrows
  have hieP : (df.rows.isEmpty = true) = False := by
    rw [hie]
    simp
  have hcolP : (colOk (py_resolve_col "bdsaStainID" (m.lookup "stainID") stainAliasesPy
      df.cols) df.cols = true) = False := by
    rw [hcol]
    simp
  simp only [py_get_metadata_stats, hieP, hcolP, if_false]
  exact List.mem_append_left _ (List.mem_append_right _ (List.mem_cons_self _ _))

/-- C1 counterexample: on the Scenario C data in invalid mode (switch on),
the claim says the stain histogram is exactly the single entry Foo with
count 1; the pythonApp variant (cited by the claim) instead counts every
value, recording H&E with count 2 as well. -/
theorem C1_histogram_counterexample :
    ((py_get_metadata_stats enumST enumRG [] scenC_df true false).stains).lookup "Foo"
      = some 1
    ∧ ((py_get_metadata_stats enumST enumRG [] scenC_df true false).stains).lookup "H&E"
      = some 2 :=
  ⟨by decide, by decide⟩

/-- C1 amended: the app variant's histogram counts exactly one class (the
invalid values when the switch is on, the valid values when it is off),
giving the claimed Scenario C result; the pythonApp variant's histogram
counts every value of the resolved column when the switch is on and is
empty when it is off. -/
theorem C1_histogram_amended :
    (∀ (vs vr : List JVal) (df : DF) (sc rc : Bool) (c : String),
      df.rows ≠ [] → app_resolve_col stainAliasesApp df.cols = some c →
      (app_get_metadata_stats vs vr df sc rc).stains = spec_histogram vs (colVals df c) sc)
    ∧ (∀ (vs vr : List JVal) (m : List (String × String)) (df : DF) (rc : Bool),
      df.rows ≠ [] →
      colOk (py_resolve_col "bdsaStainID" (m.lookup "stainID") stainAliasesPy df.cols)
        df.cols = true →
      (py_get_metadata_stats vs vr m df true rc).stains
        = countList (colVals df
            ((py_resolve_col "bdsaStainID" (m.lookup "stainID") stainAliasesPy df.cols).getD "")))
    ∧ (∀ (vs vr : List JVal) (m : List (String × String)) (df : DF) (rc : Bool),
      df.rows ≠ [] → (py_get_metadata_stats vs vr m df false rc).stains = []) :=
  ⟨fun vs vr df sc rc c h1 h2 => app_stains_histogram vs vr df sc rc c h1 h2,
   fun vs vr m df rc h1 h2 => py_stains_all vs vr m df rc h1 h2,
   fun vs vr m df rc h1 => py_stains_off vs vr m df rc h1⟩

/-- Witness for C1 amended at Scenario C: the app-variant invalid-mode
histogram is exactly the Foo entry. -/
theorem C1_histogram_amended_witness :
    (scenC_df.rows ≠ [] ∧ app_resolve_col stainAliasesApp scenC_df.cols = some "stainID"
      ∧ spec_histogram enumST (colVals scenC_df "stainID") true = [("Foo", 1)])
    ∧ (app_get_metadata_stats enumST enumRG scenC_df true false).stains
        = spec_histogram enumST (colVals scenC_df "stainID") true :=
  ⟨⟨by decide, by decide, by decide⟩,
    C1_histogram_amended.1 enumST enumRG scenC_df true false "stainID" (by decide) (by decide)⟩

/-- C2 counterexample: a single row with empty caseID but valid stain and
region, all three standardized columns present; the pythonApp Files row
reports one fully valid file while the spec's conjunctive count is zero. -/
theorem C2_valid_files_counterexample :
    (py_get_metadata_stats enumST enumRG [] c2_df true false).summary.head?
      = some ["Files", "1 (100.00%)"]
    ∧ spec_fully_valid_count enumST enumRG c2_df "bdsaCaseID" "bdsaStainID" "bdsaRegionID" = 0 :=
  ⟨by decide, by decide⟩

/-- C2 amended: the app variant's composite count is the spec's full
conjunction (caseID non-empty AND stain in enum AND region in enum); the
pythonApp variant drops the caseID conjunct, so it only bounds the
conjunctive count from above, and its Files summary row reports this
two-conjunct count. -/
theorem C2_valid_files_amended :
    (∀ (vs vr : List JVal) (df : DF) (cc sc rc : String),
      app_valid_files vs vr df (some cc) (some sc) (some rc)
        = spec_fully_valid_count vs vr df cc sc rc)
    ∧ (∀ (vs vr : List JVal) (df : DF) (scol rcol cc : String),
      colOk (some scol) df.cols = true → colOk (some rcol) df.cols = true →
      spec_fully_valid_count vs vr df cc scol rcol
        ≤ py_valid_files vs vr df (some scol) (some rcol))
    ∧ (∀ (vs vr : List JVal) (m : List (String × String)) (df : DF) (sc rc : Bool),
      df.rows ≠ [] →
      (py_get_metadata_stats vs vr m df sc rc).summary.head?
        = some ["Files", pctString (py_valid_files vs vr df
            (py_resolve_col "bdsaStainID" (m.lookup "stainID") stainAliasesPy df.cols)
            (py_resolve_col "bdsaRegionID" (m.lookup "regionName") regionAliasesPy df.cols))
            df.rows.length]) := by
  refine ⟨fun vs vr df cc sc rc => rfl, ?_, fun vs vr m df sc rc h => py_summary_files vs vr m df sc rc h⟩
  intro vs vr df scol rcol cc h1 h2
  unfold py_valid_files spec_fully_valid_count
  rw [if_pos (by rw [h1, h2]; rfl)]
  apply List.countP_mono_left
  intro r hr hp
  simp only [Bool.and_eq_true] at hp
  simp only [Option.getD_some, Bool.and_eq_true]
  exact ⟨hp.1.2, hp.2⟩

/-- Witness for C2 amended: the Files row of the concrete counterexample
dataset carries the pythonApp two-conjunct count. -/
theorem C2_valid_files_amended_witness :
    (c2_df.rows ≠ [])
    ∧ (py_get_metadata_stats enumST enumRG [] c2_df true false).summary.head?
        = some ["Files", pctString (py_valid_files enumST enumRG c2_df
            (py_resolve_col "bdsaStainID" (([] : List (String × String)).lookup "stainID")
              stainAliasesPy c2_df.cols)
            (py_resolve_col "bdsaRegionID" (([] : List (String × String)).lookup "regionName")
              regionAliasesPy c2_df.cols))
            c2_df.rows.length] :=
  ⟨by decide, C2_valid_files_amended.2.2 enumST enumRG [] c2_df true false (by decide)⟩

/-- C6 counterexample: the dataset has an all-empty bdsaStainID column and
a fully valued stainID alias column; the code resolves to bdsaStainID on
mere presence, while the claim's rule (standardized only when non-empty
for at least one row) resolves to stainID. -/
theorem C6_resolution_counterexample :
    py_resolve_col "bdsaStainID" none stainAliasesPy c6_df.cols = some "bdsaStainID"
    ∧ (∀ r ∈ c6_df.rows, dfGet r "bdsaStainID" = "")
    ∧ claim_resolve_col "bdsaStainID" stainAliasesPy c6_df = some "stainID"
    ∧ py_resolve_col "bdsaStainID" none stainAliasesPy c6_df.cols
        ≠ claim_resolve_col "bdsaStainID" stainAliasesPy c6_df :=
  ⟨by decide, by decide, by decide, by decide⟩

/-- C6 amended: the pythonApp Validator prefers the standardized column
whenever it exists, regardless of its values; when the final candidate is
unset or absent, the field's summary row is the marker "Column not found
or not mapped" (and no percentage row for it is produced), while a
resolved field additionally reports its column name. -/
theorem C6_resolution_amended :
    (∀ (m : List (String × String)) (cols : List String),
      cols.contains "bdsaStainID" = true →
      py_resolve_col "bdsaStainID" (m.lookup "stainID") stainAliasesPy cols
        = some "bdsaStainID")
    ∧ (∀ (vs vr : List JVal) (m : List (String × String)) (df : DF) (sc rc : Bool),
      df.rows ≠ [] →
      colOk (py_resolve_col "bdsaStainID" (m.lookup "stainID") stainAliasesPy df.cols)
        df.cols = false →
      ["stainID", pyMarker] ∈ (py_get_metadata_stats vs vr m df sc rc).summary)
    ∧ (∀ (vs vr : List JVal) (m : List (String × String)) (df : DF) (sc rc : Bool),
      df.rows ≠ [] →
      colOk (py_resolve_col "bdsaStainID" (m.lookup "stainID") stainAliasesPy df.cols)
        df.cols = true →
      ["stainID column",
        (py_resolve_col "bdsaStainID" (m.lookup "stainID") stainAliasesPy df.cols).getD ""]
        ∈ (py_get_metadata_stats vs vr m df sc rc).summary) := by
  refine ⟨?_, fun vs vr m df sc rc h1 h2 => py_summary_stain_marker vs vr m df sc rc h1 h2,
    fun vs vr m df sc rc h1 h2 => (py_summary_stain_ok vs vr m df sc rc h1 h2).2⟩
  intro m cols h
  unfold py_resolve_col
  rw [if_pos h]

/-- Witness for C6 amended: with the standardized column present it is
chosen outright. -/
theorem C6_resolution_amended_witness :
    (c2_df.cols.contains "bdsaStainID" = true)
    ∧ py_resolve_col "bdsaStainID" (([] : List (String × String)).lookup "stainID")
        stainAliasesPy c2_df.cols = some "bdsaStainID" :=
  ⟨by decide, C6_resolution_amended.1 [] c2_df.cols (by decide)⟩

/-- C7 counterexample: the app variant's format string embeds the
conditional as literal text, so a fully valid one-row dataset reports
"1 (100.00% if N > 0 else 0)" rather than "1 (100.00%)". -/
theorem C7_format_counterexample :
    (app_get_metadata_stats enumST enumRG c7_df false false).summary.head?
      = some ["Files", "1 (100.00% if N > 0 else 0)"]
    ∧ "1 (100.00% if N > 0 else 0)" ≠ "1 (100.00%)" :=
  ⟨by decide, by decide⟩

/-- C7 amended: an empty dataset short-circuits both variants to an empty
report (no metric strings and no division at all; the zero-row
"0 (0.00%)" branch is unreachable); for non-empty datasets the pythonApp
variant's metric strings for resolved fields have the claimed form
count (pct%) with a two-decimal percentage. -/
theorem C7_format_amended :
    (∀ (vs vr : List JVal) (m : List (String × String)) (cols : List String) (sc rc : Bool),
      py_get_metadata_stats vs vr m ⟨cols, []⟩ sc rc = ⟨[], [], []⟩)
    ∧ (∀ (vs vr : List JVal) (cols : List String) (sc rc : Bool),
      app_get_metadata_stats vs vr ⟨cols, []⟩ sc rc = ⟨[], [], []⟩)
    ∧ (∀ (vs vr : List JVal) (m : List (String × String)) (df : DF) (sc rc : Bool),
      df.rows ≠ [] →
      colOk (py_resolve_col "bdsaStainID" (m.lookup "stainID") stainAliasesPy df.cols)
        df.cols = true →
      ["stainID", pctString (validCount vs df
          ((py_resolve_col "bdsaStainID" (m.lookup "stainID") stainAliasesPy df.cols).getD ""))
          df.rows.length]
        ∈ (py_get_metadata_stats vs vr m df sc rc).summary) :=
  ⟨fun vs vr m cols sc rc => py_stats_empty vs vr m cols sc rc,
   fun vs vr cols sc rc => app_stats_empty vs vr cols sc rc,
   fun vs vr m df sc rc h1 h2 => (py_summary_stain_ok vs vr m df sc rc h1 h2).1⟩

/-- Witness for C7 amended: the concrete stainID metric row has the
count (pct%) form. -/
theorem C7_format_amended_witness :
    (c2_df.rows ≠ []
      ∧ colOk (py_resolve_col "bdsaStainID" (([] : List (String × String)).lookup "stainID")
          stainAliasesPy c2_df.cols) c2_df.cols = true)
    ∧ ["stainID", pctString (validCount enumST c2_df
        ((py_resolve_col "bdsaStainID" (([] : List (String × String)).lookup "stainID")
          stainAliasesPy c2_df.cols).getD ""))
        c2_df.rows.length]
      ∈ (py_get_metadata_stats enumST enumRG [] c2_df false false).summary :=
  ⟨⟨by decide, by decide⟩,
    C7_format_amended.2.2 enumST enumRG [] c2_df false false (by decide) (by decide)⟩

/-- C8 counterexample: a schema whose stainID property has no enum makes
the Validator raise KeyError instead of returning a zero-valid report. -/
theorem C8_malformed_enum_counterexample :
    py_get_metadata_stats_schema c8_schema [] c7_df true false
      = Except.error "KeyError: enum" :=
  rfl

/-- C8 amended: a governed field whose enum is absent makes the Validator
fail with the KeyError from the schema read (no report of any kind); an
enum that is not list-like (a string, number or null) raises TypeError at
the first `isin` call, which only happens when the field's column
resolves — with an unresolved column the enum is never consulted and a
report is still produced; a dict enum is list-like for pandas, so it is
accepted and tested against its keys; and when both enums are lists the
report is produced. -/
theorem C8_malformed_enum_amended :
    (∀ (schema : JVal) (m : List (String × String)) (df : DF) (sc rc : Bool)
      (vr : List JVal) (msg : String),
      df.rows ≠ [] →
      getEnum schema "regionName" = Except.ok (JVal.arr vr) →
      getEnum schema "stainID" = Except.error msg →
      py_get_metadata_stats_schema schema m df sc rc = Except.error msg)
    ∧ (∀ (schema : JVal) (m : List (String × String)) (df : DF) (sc rc : Bool)
      (vs vr : List JVal),
      df.rows ≠ [] →
      getEnum schema "regionName" = Except.ok (JVal.arr vr) →
      getEnum schema "stainID" = Except.ok (JVal.arr vs) →
      py_get_metadata_stats_schema schema m df sc rc
        = Except.ok (py_get_metadata_stats vs vr m df sc rc))
    ∧ (∀ (schema : JVal) (m : List (String × String)) (df : DF) (sc rc : Bool)
      (vsJ : JVal) (vr : List JVal),
      df.rows ≠ [] →
      getEnum schema "regionName" = Except.ok (JVal.arr vr) →
      getEnum schema "stainID" = Except.ok vsJ →
      isinValues vsJ = none →
      colOk (py_resolve_col "bdsaStainID" (m.lookup "stainID") stainAliasesPy df.cols)
        df.cols = true →
      py_get_metadata_stats_schema schema m df sc rc = Except.error typeErrIsin)
    ∧ (∀ (schema : JVal) (m : List (String × String)) (df : DF) (sc rc : Bool)
      (vrJ : JVal) (vs : List JVal),
      df.rows ≠ [] →
      getEnum schema "regionName" = Except.ok vrJ →
      getEnum schema "stainID" = Except.ok (JVal.arr vs) →
      isinValues vrJ = none →
      colOk (py_resolve_col "bdsaRegionID" (m.lookup "regionName") regionAliasesPy df.cols)
        df.cols = true →
      py_get_metadata_stats_schema schema m df sc rc = Except.error typeErrIsin)
    ∧ (∀ (schema : JVal) (m : List (String × String)) (df : DF) (sc rc : Bool)
      (fields : List (String × JVal)) (vr : List JVal),
      df.rows ≠ [] →
      getEnum schema "regionName" = Except.ok (JVal.arr vr) →
      getEnum schema "stainID" = Except.ok (JVal.obj fields) →
      py_get_metadata_stats_schema schema m df sc rc
        = Except.ok (py_get_metadata_stats (fields.map (fun p => JVal.s p.1)) vr m df sc rc))
    ∧ (∀ (schema : JVal) (m : List (String × String)) (df : DF) (sc rc : Bool)
      (vsJ : JVal) (vr : List JVal),
      df.rows ≠ [] →
      getEnum schema "regionName" = Except.ok (JVal.arr vr) →
      getEnum schema "stainID" = Except.ok vsJ →
      isinValues vsJ = none →
      colOk (py_resolve_col "bdsaStainID" (m.lookup "stainID") stainAliasesPy df.cols)
        df.cols = false →
      py_get_metadata_stats_schema schema m df sc rc
        = Except.ok (py_get_metadata_stats [] vr m df sc rc)) := by
  refine ⟨?_, ?_, ?_, ?_, ?_, ?_⟩
  · intro schema m df sc rc vr msg hrows hreg hstain
    unfold py_get_metadata_stats_schema
    rw [if_neg (by rw [List.isEmpty_eq_false.mpr hrows]; exact Bool.false_ne_true), hreg, hstain]
  · intro schema m df sc rc vs vr hrows hreg hstain
    unfold py_get_metadata_stats_schema
    rw [if_neg (by rw [List.isEmpty_eq_false.mpr hrows]; exact Bool.false_ne_true), hreg, hstain]
    rfl
  · intro schema m df sc rc vsJ vr hrows hreg hstain hnone hcol
    have hcolP : (colOk (py_resolve_col "bdsaStainID" (m.lookup "stainID") stainAliasesPy
        df.cols) df.cols = true) = True := eq_true hcol
    unfold py_get_metadata_stats_schema
    rw [if_neg (by rw [List.isEmpty_eq_false.mpr hrows]; exact Bool.false_ne_true), hreg, hstain]
    simp only [hnone]
    simp only [isinValues, hcolP, if_true]
  · intro schema m df sc rc vrJ vs hrows hreg hstain hnone hcol
    have hcolP : (colOk (py_resolve_col "bdsaRegionID" (m.lookup "regionName") regionAliasesPy
        df.cols) df.cols = true) = True := eq_true hcol
    unfold py_get_metadata_stats_schema
    rw [if_neg (by rw [List.isEmpty_eq_false.mpr hrows]; exact Bool.false_ne_true), hreg, hstain]
    simp only [hnone]
    simp only [isinValues, hcolP, if_true]
  · intro schema m df sc rc fields vr hrows hreg hstain
    unfold py_get_metadata_stats_schema
    rw [if_neg (by rw [List.isEmpty_eq_false.mpr hrows]; exact Bool.false_ne_true), hreg, hstain]
    rfl
  · intro schema m df sc rc vsJ vr hrows hreg hstain hnone hcol
    have hcolP : (colOk (py_resolve_col "bdsaStainID" (m.lookup "stainID") stainAliasesPy
        df.cols) df.cols = true) = False := by
      rw [hcol]
      simp
    unfold py_get_metadata_stats_schema
    rw [if_neg (by rw [List.isEmpty_eq_false.mpr hrows]; exact Bool.false_ne_true), hreg, hstain]
    simp only [hnone]
    simp only [isinValues, hcolP, if_false]

/-- Witness for C8 amended: a well-formed schema yields the report. -/
theorem C8_malformed_enum_amended_witness :
    (c7_df.rows ≠ []
      ∧ getEnum okSchema "regionName" = Except.ok (JVal.arr [JVal.s "Amygdala"])
      ∧ getEnum okSchema "stainID" = Except.ok (JVal.arr [JVal.s "H&E", JVal.s "Tau"]))
    ∧ py_get_metadata_stats_schema okSchema [] c7_df false false
        = Except.ok (py_get_metadata_stats [JVal.s "H&E", JVal.s "Tau"] [JVal.s "Amygdala"]
            [] c7_df false false) :=
  ⟨⟨by decide, rfl, rfl⟩,
    C8_malformed_enum_amended.2.1 okSchema [] c7_df false false
      [JVal.s "H&E", JVal.s "Tau"] [JVal.s "Amygdala"] (by decide) rfl rfl⟩

end StatsLemmas
